import Mathlib

/-!
Shallow embedding of the socni VLAN CNI plugin (Rust) for verification.

The embedding mirrors, definition by definition:
  - src/socni/src/types/mod.rs   (CNI result types and their serde serialization)
  - src/socni/src/config/mod.rs  (NetConf and NetConf::parse validation)
  - src/socni/src/plugin/mod.rs  (VlanPlugin::in_netns, add_network, del_network,
                                  check_vlan_access)
  - src/socni/src/commands/mod.rs (cmd_add pipeline)

External effects (the `ip` subcommands, the setns/open system calls, the Aranya
backend) are modelled by an explicit environment of outcomes plus an OS state
holding the set of links in the host namespace; every executed `ip` command is
recorded in a trace and every `warn!` call in a warnings list.
-/

/-- JSON value model for serde_json serialization of the result types. -/
inductive Json where
  | null : Json
  | str : String → Json
  | num : Int → Json
  | arr : List Json → Json
  | obj : List (String × Json) → Json

/-- Look up a field of a JSON object; `none` when the field is absent or the
value is not an object. -/
def Json.lookupField : Json → String → Option Json
  | .obj fields, k => fields.lookup k
  | _, _ => none

/-- serde serialization of an `Option` field without skip attributes:
`None` is emitted as an explicit JSON `null`. -/
def optJson (f : α → Json) : Option α → Json
  | none => Json.null
  | some x => f x

/-- types::Interface (src/socni/src/types/mod.rs lines 38-46). -/
structure Interface where
  name : String
  mac : Option String
  sandbox : Option String
deriving DecidableEq, Repr

/-- types::IPConfig (src/socni/src/types/mod.rs lines 49-57). -/
structure IPConfig where
  interface : Option Nat
  address : String
  gateway : Option String
deriving DecidableEq, Repr

/-- types::DNS (src/socni/src/types/mod.rs lines 60-68). -/
structure DNS where
  nameservers : Option (List String)
  search : Option (List String)
  options : Option (List String)
deriving DecidableEq, Repr

/-- types::Route (src/socni/src/types/mod.rs lines 71-77), imported in the
plugin as CniRoute. -/
structure CniRoute where
  dst : String
  gw : Option String
deriving DecidableEq, Repr

/-- types::Result (src/socni/src/types/mod.rs lines 22-35), imported in the
plugin as CniResult. -/
structure CniResult where
  cni_version : String
  interfaces : Option (List Interface)
  ips : Option (List IPConfig)
  dns : Option DNS
  routes : Option (List CniRoute)
deriving DecidableEq, Repr

/-- Result::new (types/mod.rs lines 81-89). -/
def CniResult.new (cni_version : String) : CniResult :=
  { cni_version := cni_version
    interfaces := none
    ips := none
    dns := none
    routes := none }

/-- Result::add_interface (types/mod.rs lines 92-100): lazily initializes the
vector, then pushes. -/
def CniResult.add_interface (r : CniResult) (i : Interface) : CniResult :=
  { r with interfaces := some ((r.interfaces.getD []) ++ [i]) }

/-- Result::add_ip (types/mod.rs lines 103-111). -/
def CniResult.add_ip (r : CniResult) (ip : IPConfig) : CniResult :=
  { r with ips := some ((r.ips.getD []) ++ [ip]) }

/-- Result::add_route (types/mod.rs lines 114-122). -/
def CniResult.add_route (r : CniResult) (rt : CniRoute) : CniResult :=
  { r with routes := some ((r.routes.getD []) ++ [rt]) }

/-- Result::set_dns (types/mod.rs lines 125-127). -/
def CniResult.set_dns (r : CniResult) (d : DNS) : CniResult :=
  { r with dns := some d }

/-- serde serialization of Interface: derived Serialize with no skip
attributes, fields in declaration order. -/
def Interface.toJson (i : Interface) : Json :=
  .obj [("name", .str i.name),
        ("mac", optJson Json.str i.mac),
        ("sandbox", optJson Json.str i.sandbox)]

/-- serde serialization of IPConfig. -/
def IPConfig.toJson (ip : IPConfig) : Json :=
  .obj [("interface", optJson (fun n => Json.num (Int.ofNat n)) ip.interface),
        ("address", .str ip.address),
        ("gateway", optJson Json.str ip.gateway)]

/-- serde serialization of DNS. -/
def DNS.toJson (d : DNS) : Json :=
  .obj [("nameservers", optJson (fun xs => Json.arr (xs.map Json.str)) d.nameservers),
        ("search", optJson (fun xs => Json.arr (xs.map Json.str)) d.search),
        ("options", optJson (fun xs => Json.arr (xs.map Json.str)) d.options)]

/-- serde serialization of types::Route. -/
def CniRoute.toJson (rt : CniRoute) : Json :=
  .obj [("dst", .str rt.dst),
        ("gw", optJson Json.str rt.gw)]

/-- serde serialization of types::Result, as performed by Result::print
(types/mod.rs lines 130-134) via serde_json: the struct derives Serialize with
NO skip_serializing_if attributes, so every field is emitted in declaration
order and an unset Option is emitted as null. Field renames: cni_version is
cniVersion. -/
def CniResult.toJson (r : CniResult) : Json :=
  .obj [("cniVersion", .str r.cni_version),
        ("interfaces", optJson (fun xs => Json.arr (xs.map Interface.toJson)) r.interfaces),
        ("ips", optJson (fun xs => Json.arr (xs.map IPConfig.toJson)) r.ips),
        ("dns", optJson DNS.toJson r.dns),
        ("routes", optJson (fun xs => Json.arr (xs.map CniRoute.toJson)) r.routes)]

/-- Whether serialization omits the named field entirely from the output
document. -/
def CniResult.fieldOmitted (r : CniResult) (field : String) : Bool :=
  (r.toJson.lookupField field).isNone

/-- config::Route (src/socni/src/config/mod.rs lines 71-77). -/
structure RouteConf where
  dst : String
  gw : Option String
deriving DecidableEq, Repr

/-- config::IPAMConfig (config/mod.rs lines 55-68). -/
structure IPAMConfig where
  ipam_type : String
  subnet : Option String
  range : Option String
  gateway : Option String
  routes : Option (List RouteConf)
deriving DecidableEq, Repr

/-- config::NetConf (config/mod.rs lines 34-52). The Rust field vlan is a u16;
it is modelled as Nat (callers of interest satisfy vlan < 65536). -/
structure NetConf where
  cni_version : String
  name : String
  plugin_type : String
  master : String
  vlan : Nat
  mtu : Option Nat
  ipam : Option IPAMConfig
deriving DecidableEq, Repr

/-- NetConf::parse (config/mod.rs lines 81-95). The serde_json deserialization
step is modelled by the Option input: none is a JSON-level parse failure, some
conf is a successfully deserialized struct, which is then validated exactly as
in the source: vlan outside 1..=4094 fails, then empty master fails. -/
def NetConf.parse (input : Option NetConf) : Except String NetConf :=
  match input with
  | none => .error "Failed to parse network configuration"
  | some conf =>
    if conf.vlan < 1 || conf.vlan > 4094 then
      .error "Invalid VLAN ID (must be between 1 and 4094)"
    else if conf.master = "" then
      .error "Master interface name is required"
    else
      .ok conf

/-- types::CmdArgs (types/mod.rs lines 6-19); stdin_data is carried separately
as its deserialization outcome where needed. -/
structure CmdArgs where
  container_id : String
  netns : String
  ifname : String
  args : List (String × String)
  path : String
deriving DecidableEq, Repr

/-- Whether a stderr string contains the substring "File exists" (the
`String::contains` check on create_cmd stderr, plugin/mod.rs line 160). -/
def containsFileExists (s : String) : Bool :=
  decide ("File exists".toList <:+: s.toList)

/-- Outcome of one executed `ip` subcommand: exit status success flag and
captured stderr. -/
structure CmdOutcome where
  success : Bool
  stderr : String
deriving DecidableEq, Repr

/-- State of the host network namespace: the links present in it. -/
structure OsState where
  hostLinks : List String
deriving DecidableEq, Repr

/-- Executed `ip` subcommands, recorded as a trace. -/
inductive Cmd where
  | showMaster : String → Cmd
  | linkAdd : String → Cmd
  | linkUp : String → Cmd
  | setMtu : String → Nat → Cmd
  | moveToNs : String → String → Cmd
  | rename : String → String → Cmd
  | linkUpInNs : String → Cmd
  | addrAdd : String → String → Cmd
  | routeAdd : String → Cmd
  | linkDelete : String → Cmd
deriving DecidableEq, Repr

/-- Whether a traced command deletes a link (the only cleanup primitive). -/
def Cmd.isLinkDelete : Cmd → Bool
  | .linkDelete _ => true
  | _ => false

/-- Whether a traced command mutates network state (everything except the
read-only `ip link show` master lookup). -/
def Cmd.isMutating : Cmd → Bool
  | .showMaster _ => false
  | _ => true

/-- OS semantics of `ip link add link MASTER name NAME type vlan id ID`: if
the link name already exists the command fails with stderr containing "File
exists" and the state is unchanged; otherwise it can fail for an injected
environment reason, or succeed and add the link. -/
def ipLinkAdd (createFails : Bool) (nm : String) (s : OsState) : CmdOutcome × OsState :=
  if s.hostLinks.contains nm then
    (⟨false, "RTNETLINK answers: File exists"⟩, s)
  else if createFails then
    (⟨false, "ip link add failed"⟩, s)
  else
    (⟨true, ""⟩, ⟨nm :: s.hostLinks⟩)

/-- The acceptance condition applied to the create outcome at plugin/mod.rs
line 160: not an error when the status is success OR stderr contains
"File exists". -/
def createAccepted (out : CmdOutcome) : Bool :=
  out.success || containsFileExists out.stderr

/-- Deterministic VLAN sub-interface name (plugin/mod.rs line 150). -/
def vlanName (master : String) (vlan : Nat) : String :=
  master ++ "." ++ toString vlan

/-- Address applied during in-namespace IPAM configuration (plugin/mod.rs
line 251): a pure function of the VLAN id. -/
def ipAddrFor (vlan : Nat) : String :=
  "192.168." ++ toString (vlan % 256) ++ ".2/24"

/-- Gateway applied during in-namespace IPAM configuration (plugin/mod.rs
line 252): a pure function of the VLAN id. -/
def gatewayFor (vlan : Nat) : String :=
  "192.168." ++ toString (vlan % 256) ++ ".1"

/-- Environment of system-call outcomes for VlanPlugin::in_netns
(plugin/mod.rs lines 81-130): whether each open/setns call succeeds. -/
structure NetnsEnv where
  targetOpenOk : Bool
  curOpenOk : Bool
  setTargetOk : Bool
  restoreOk : Bool
deriving DecidableEq, Repr

/-- Observable outcome of one in_netns call: the returned value, the network
namespace the calling thread is in after the call returns, and whether the
restoring setns call was attempted. -/
structure NetnsRun (T : Type) where
  ret : Except String T
  finalNs : Nat
  restoreAttempted : Bool

/-- VlanPlugin::in_netns (plugin/mod.rs lines 81-130). Namespaces are
identified by Nat; the thread starts in origNs. Failing to open the target
namespace, to open the current namespace, or to switch, returns early without
running the operation. Once switched, the operation runs, and the restoring
setns is invoked unconditionally; if the restore fails the function returns
the restore error (the operation result is discarded) and the thread is left
in the target namespace. -/
def in_netns (env : NetnsEnv) (origNs targetNs : Nat) (op : Except String T) :
    NetnsRun T :=
  if !env.targetOpenOk then
    ⟨.error "Failed to open netns", origNs, false⟩
  else if !env.curOpenOk then
    ⟨.error "Failed to open current netns", origNs, false⟩
  else if !env.setTargetOk then
    ⟨.error "Failed to set netns", origNs, false⟩
  else if !env.restoreOk then
    ⟨.error "Failed to restore original netns", targetNs, true⟩
  else
    ⟨op, origNs, true⟩

/-- check_vlan_access (plugin/mod.rs lines 70-78): when the Aranya client was
initialized, the backend decides; otherwise access is allowed for backward
compatibility. -/
def check_vlan_access (aranyaInited : Bool) (backend : Except String Bool) :
    Except String Bool :=
  if aranyaInited then backend else .ok true

/-- The denial condition at plugin/mod.rs lines 140-144: only an Ok(false)
from check_vlan_access aborts; Ok(true) and Err both proceed. -/
def accessDenied : Except String Bool → Bool
  | .ok false => true
  | _ => false

/-- Environment of external outcomes for one add_network invocation. -/
structure AddEnv where
  aranyaInitOk : Bool
  accessCheck : Except String Bool
  masterExists : Bool
  createFails : Bool
  upOk : Bool
  mtuOk : Bool
  moveOk : Bool
  netnsOpenOk : Bool
  curOpenOk : Bool
  setNsOk : Bool
  renameOk : Bool
  upInNsOk : Bool
  addrOk : Bool
  routeOk : Bool
  restoreOk : Bool
  registerOk : Bool
deriving Repr

/-- Result of the closure run inside the container namespace. -/
structure FinalizeOut where
  ret : Except String CniResult
  cmds : List Cmd
  warnings : List String

/-- The closure passed to in_netns by add_network (plugin/mod.rs lines
221-303): rename if needed (fatal on failure), bring the interface up (fatal
on failure), then, when an IPAM section is present, apply the VLAN-derived
address (fatal on failure), attempt the default route (warn on failure), and
append the IP, default-route and configured-route records to the result. -/
def finalizeInNs (env : AddEnv) (conf : NetConf) (ifname vlanNm : String)
    (res : CniResult) : FinalizeOut :=
  let renCmds := if vlanNm ≠ ifname then [Cmd.rename vlanNm ifname] else []
  if vlanNm ≠ ifname ∧ env.renameOk = false then
    ⟨.error "Failed to rename interface in container", renCmds, []⟩
  else
    let cmds1 := renCmds ++ [Cmd.linkUpInNs ifname]
    if env.upInNsOk = false then
      ⟨.error "Failed to set interface up in container", cmds1, []⟩
    else
      match conf.ipam with
      | none => ⟨.ok res, cmds1, []⟩
      | some ipam =>
        let ip := ipAddrFor conf.vlan
        let gw := gatewayFor conf.vlan
        let cmds2 := cmds1 ++ [Cmd.addrAdd ip ifname]
        if env.addrOk = false then
          ⟨.error "Failed to add IP address to interface", cmds2, []⟩
        else
          let cmds3 := cmds2 ++ [Cmd.routeAdd gw]
          let warns := if env.routeOk = false then ["Failed to add default route"] else []
          let res1 := res.add_ip ⟨none, ip, some gw⟩
          let res2 := res1.add_route ⟨"0.0.0.0/0", some gw⟩
          let res3 := match ipam.routes with
            | none => res2
            | some rs => rs.foldl (fun r rt => r.add_route ⟨rt.dst, rt.gw⟩) res2
          ⟨.ok res3, cmds3, warns⟩

/-- Observable outcome of one add_network invocation. -/
structure AddOut where
  ret : Except String CniResult
  state : OsState
  trace : List Cmd
  warnings : List String

/-- The in-namespace stage of add_network (plugin/mod.rs lines 200-313):
the result accumulator is created with the requested interface appended
(lines 201-209), then the finalize closure runs via in_netns (failure to open
either namespace or to switch aborts without running it; a failed restore
replaces the closure result with the restore error), and on overall success
the VLAN is registered with Aranya (registration failure only warns). -/
def nsStage (env : AddEnv) (conf : NetConf) (args : CmdArgs) (s2 : OsState)
    (nm : String) (tr : List Cmd) (warns : List String) : AddOut :=
  let res0 := (CniResult.new conf.cni_version).add_interface
    ⟨args.ifname, none, some args.netns⟩
  if env.netnsOpenOk = false then
    ⟨.error "Failed to open netns", s2, tr, warns⟩
  else if env.curOpenOk = false then
    ⟨.error "Failed to open current netns", s2, tr, warns⟩
  else if env.setNsOk = false then
    ⟨.error "Failed to set netns", s2, tr, warns⟩
  else
    let fo := finalizeInNs env conf args.ifname nm res0
    let tr6 := tr ++ fo.cmds
    let warns2 := warns ++ fo.warnings
    if env.restoreOk = false then
      ⟨.error "Failed to restore original netns", s2, tr6, warns2⟩
    else
      match fo.ret with
      | .error e => ⟨.error e, s2, tr6, warns2⟩
      | .ok res =>
        ⟨.ok res, s2, tr6, warns2 ++
          (if env.aranyaInitOk && !env.registerOk then
            ["Failed to register VLAN with Aranya"]
          else [])⟩

/-- The host-side provisioning stage of add_network (plugin/mod.rs lines
146-198): master-interface verification (fatal), idempotent VLAN link
creation (already-existing link accepted via the "File exists" stderr check),
link up (fatal), optional MTU (warn only), migration into the container
namespace (fatal; on success the link leaves the host namespace). No cleanup
of the created link happens on any error path. -/
def provision (env : AddEnv) (conf : NetConf) (args : CmdArgs) (s : OsState)
    (warns0 : List String) : AddOut :=
  let tr1 := [Cmd.showMaster conf.master]
  if env.masterExists = false then
    ⟨.error "Master interface does not exist", s, tr1, warns0⟩
  else
    let nm := vlanName conf.master conf.vlan
    let tr2 := tr1 ++ [Cmd.linkAdd nm]
    let created := ipLinkAdd env.createFails nm s
    let s1 := created.2
    if createAccepted created.1 = false then
      ⟨.error "Failed to create VLAN interface", s1, tr2, warns0⟩
    else
      let tr3 := tr2 ++ [Cmd.linkUp nm]
      if env.upOk = false then
        ⟨.error "Failed to set VLAN interface up", s1, tr3, warns0⟩
      else
        let tr4 := match conf.mtu with
          | some m => tr3 ++ [Cmd.setMtu nm m]
          | none => tr3
        let warns1 := warns0 ++
          (match conf.mtu with
           | some _ =>
             if env.mtuOk = false then ["Failed to set MTU on VLAN interface"] else []
           | none => [])
        let tr5 := tr4 ++ [Cmd.moveToNs nm args.netns]
        if env.moveOk = false then
          ⟨.error "Failed to move VLAN interface to container namespace", s1, tr5, warns1⟩
        else
          nsStage env conf args ⟨s1.hostLinks.erase nm⟩ nm tr5 warns1

/-- VlanPlugin::add_network (plugin/mod.rs lines 133-313), assembled from its
stages in source order: Aranya init (failure only warns), access check (only
an Ok(false) from check_vlan_access aborts; an Err is ignored), then the
host-side provisioning stage followed by the in-namespace stage. -/
def add_network (env : AddEnv) (conf : NetConf) (args : CmdArgs) (s : OsState) :
    AddOut :=
  let warns0 :=
    if env.aranyaInitOk = false then
      ["Failed to initialize Aranya security. Continuing with reduced security.",
       "Aranya security not initialized"]
    else []
  if accessDenied (check_vlan_access env.aranyaInitOk env.accessCheck) then
    ⟨.error "Access denied by Aranya policy engine", s, [], warns0⟩
  else
    provision env conf args s warns0

/-- cmd_add (src/socni/src/commands/mod.rs lines 63-80): NetConf::parse runs
on the stdin payload first; only on success is the plugin constructed and
add_network invoked, so a parse failure performs no network operation. -/
def cmd_add (env : AddEnv) (stdin : Option NetConf) (args : CmdArgs)
    (s : OsState) : AddOut :=
  match NetConf.parse stdin with
  | .error e => ⟨.error e, s, [], []⟩
  | .ok conf => add_network env conf args s

/-- Environment of external outcomes for one del_network invocation. -/
structure DelEnv where
  aranyaInitOk : Bool
  netnsOpenOk : Bool
  curOpenOk : Bool
  setNsOk : Bool
  delOk : Bool
  restoreOk : Bool
  deregisterOk : Bool
deriving DecidableEq, Repr

/-- Observable outcome of one del_network invocation. -/
structure DelOut where
  ret : Except String Unit
  trace : List Cmd
  warnings : List String

/-- VlanPlugin::del_network (plugin/mod.rs lines 316-359). Aranya init failure
only warns; the in-namespace delete closure is run through in_netns and its
result is discarded by an `if let Ok` pattern, so an absent namespace (open or
switch failure) or a failed restore is silently ignored; a failed `ip link
delete` inside the namespace only warns; Aranya deregistration failure only
warns. The function always returns Ok(()). -/
def del_network (env : DelEnv) (_conf : NetConf) (args : CmdArgs) : DelOut :=
  let warns0 :=
    if env.aranyaInitOk = false then
      ["Failed to initialize Aranya security. Continuing with cleanup."]
    else []
  let switched := env.netnsOpenOk && env.curOpenOk && env.setNsOk
  let tr := if switched then [Cmd.linkDelete args.ifname] else []
  let warns1 := warns0 ++
    (if switched && !env.delOk then ["Failed to delete interface in container"] else [])
  let warns2 := warns1 ++
    (if env.aranyaInitOk && !env.deregisterOk then
      ["Failed to deregister VLAN from Aranya"]
    else [])
  ⟨.ok (), tr, warns2⟩

/-- Helper: folding add_route over a route list never changes the ips field. -/
theorem foldl_add_route_ips (rs : List RouteConf) (r : CniResult) :
    (rs.foldl (fun a rt => a.add_route ⟨rt.dst, rt.gw⟩) r).ips = r.ips := by
  induction rs generalizing r with
  | nil => rfl
  | cons rt rs ih => simpa [CniResult.add_route] using ih (r.add_route ⟨rt.dst, rt.gw⟩)

/-- C1: for every operation passed to in_netns, including failing ones, when
the restoring setns call succeeds the calling thread ends the call in the
namespace captured before the switch; and whether the restore is attempted
does not depend on the operation's outcome (it is attempted on both the
success and the failure path), in particular it is attempted whenever the
switch into the target namespace happened. -/
theorem in_netns_restores_namespace {T : Type} (env : NetnsEnv)
    (origNs targetNs : Nat) (op opAlt : Except String T)
    (hrestore : env.restoreOk = true) :
    (in_netns env origNs targetNs op).finalNs = origNs ∧
    (in_netns env origNs targetNs op).restoreAttempted =
      (in_netns env origNs targetNs opAlt).restoreAttempted ∧
    (env.targetOpenOk = true → env.curOpenOk = true → env.setTargetOk = true →
      (in_netns env origNs targetNs op).restoreAttempted = true) := by
  unfold in_netns
  cases h1 : env.targetOpenOk <;> cases h2 : env.curOpenOk <;>
    cases h3 : env.setTargetOk <;> simp [h1, h2, h3, hrestore]

/-- Witness for C1 at a concrete input: a failing operation, all system calls
succeeding. -/
theorem in_netns_restores_namespace_witness :
    (in_netns ⟨true, true, true, true⟩ 7 9
      (Except.error "operation failed" : Except String String)).finalNs = 7 ∧
    (in_netns ⟨true, true, true, true⟩ 7 9
      (Except.error "operation failed" : Except String String)).restoreAttempted =
      (in_netns ⟨true, true, true, true⟩ 7 9
        (Except.ok "fine" : Except String String)).restoreAttempted ∧
    ((⟨true, true, true, true⟩ : NetnsEnv).targetOpenOk = true →
      (⟨true, true, true, true⟩ : NetnsEnv).curOpenOk = true →
      (⟨true, true, true, true⟩ : NetnsEnv).setTargetOk = true →
      (in_netns ⟨true, true, true, true⟩ 7 9
        (Except.error "operation failed" : Except String String)).restoreAttempted = true) :=
  in_netns_restores_namespace ⟨true, true, true, true⟩ 7 9
    (Except.error "operation failed" : Except String String)
    (Except.ok "fine" : Except String String) rfl

/-- C3 counterexample: a freshly created result (no accumulator ever
populated) does NOT omit the unpopulated fields; serde emits them as explicit
JSON nulls, here shown for the ips field of Result::new("1.0.0"). -/
theorem result_null_not_omitted_counterexample :
    (CniResult.new "1.0.0").ips = none ∧
    (CniResult.new "1.0.0").fieldOmitted "ips" = false ∧
    (CniResult.new "1.0.0").toJson.lookupField "ips" = some Json.null ∧
    (CniResult.new "1.0.0").toJson.lookupField "interfaces" = some Json.null := by
  exact ⟨rfl, rfl, rfl, rfl⟩

/-- C3 (amended): serialization emits every unpopulated accumulator field as
an explicit JSON null (never omits it), and a result with exactly one address
added serializes with an ips list of exactly one entry. -/
theorem result_serialization_shape (r : CniResult) (v : String) (ip : IPConfig)
    (hifs : r.interfaces = none) (hips : r.ips = none)
    (hdns : r.dns = none) (hrts : r.routes = none) :
    r.toJson.lookupField "interfaces" = some Json.null ∧
    r.toJson.lookupField "ips" = some Json.null ∧
    r.toJson.lookupField "dns" = some Json.null ∧
    r.toJson.lookupField "routes" = some Json.null ∧
    ((CniResult.new v).add_ip ip).ips = some [ip] ∧
    ((CniResult.new v).add_ip ip).toJson.lookupField "ips" =
      some (Json.arr [ip.toJson]) := by
  refine ⟨?_, ?_, ?_, ?_, rfl, rfl⟩ <;>
    simp [CniResult.toJson, Json.lookupField, optJson, hifs, hips, hdns, hrts,
      List.lookup]

/-- Witness for C3's amended theorem at a concrete input. -/
theorem result_serialization_shape_witness :
    (CniResult.new "0.4.0").toJson.lookupField "interfaces" = some Json.null ∧
    (CniResult.new "0.4.0").toJson.lookupField "ips" = some Json.null ∧
    (CniResult.new "0.4.0").toJson.lookupField "dns" = some Json.null ∧
    (CniResult.new "0.4.0").toJson.lookupField "routes" = some Json.null ∧
    ((CniResult.new "1.0.0").add_ip ⟨none, "192.168.100.2/24", some "192.168.100.1"⟩).ips
      = some [⟨none, "192.168.100.2/24", some "192.168.100.1"⟩] ∧
    ((CniResult.new "1.0.0").add_ip ⟨none, "192.168.100.2/24", some "192.168.100.1"⟩).toJson.lookupField "ips"
      = some (Json.arr [IPConfig.toJson ⟨none, "192.168.100.2/24", some "192.168.100.1"⟩]) :=
  result_serialization_shape (CniResult.new "0.4.0") "1.0.0"
    ⟨none, "192.168.100.2/24", some "192.168.100.1"⟩ rfl rfl rfl rfl

/-- C4: NetConf::parse rejects every VLAN id outside 1..=4094 and every empty
master name, accepts every otherwise well-formed configuration with a VLAN id
inside the range, and a parse failure in cmd_add means no network operation is
attempted (empty command trace, OS state unchanged). -/
theorem netconf_parse_validation (conf : NetConf) (env : AddEnv)
    (args : CmdArgs) (s : OsState) (stdin : Option NetConf) :
    (conf.vlan < 1 ∨ conf.vlan > 4094 →
      ∃ e, NetConf.parse (some conf) = .error e) ∧
    (conf.master = "" → ∃ e, NetConf.parse (some conf) = .error e) ∧
    (1 ≤ conf.vlan → conf.vlan ≤ 4094 → conf.master ≠ "" →
      NetConf.parse (some conf) = .ok conf) ∧
    ((∃ e, NetConf.parse stdin = .error e) →
      (cmd_add env stdin args s).trace = [] ∧
      (cmd_add env stdin args s).state = s) := by
  refine ⟨?_, ?_, ?_, ?_⟩
  · intro h
    unfold NetConf.parse
    rcases h with h | h <;> simp [h]
  · intro h
    unfold NetConf.parse
    by_cases hv : conf.vlan < 1 ∨ conf.vlan > 4094
    · rcases hv with hv | hv <;> simp [hv]
    · push_neg at hv
      simp [h, Nat.lt_iff_add_one_le, hv.1, hv.2, Nat.not_lt.mpr hv.1,
        Nat.not_lt.mpr hv.2]
  · intro h1 h2 h3
    unfold NetConf.parse
    simp [Nat.not_lt.mpr h1, Nat.not_lt.mpr h2, h3]
  · intro h
    rcases h with ⟨e, he⟩
    unfold cmd_add
    simp [he]

/-- Witness for C4 at concrete inputs: vlan 5000 is rejected, vlan 0 is
rejected, an empty master is rejected, and vlan 100 with master eth0 parses;
a failed parse yields an empty trace. -/
theorem netconf_parse_validation_witness :
    (∃ e, NetConf.parse (some ⟨"1.0.0", "n", "vlan", "eth0", 5000, none, none⟩)
      = .error e) ∧
    (∃ e, NetConf.parse (some ⟨"1.0.0", "n", "vlan", "eth0", 0, none, none⟩)
      = .error e) ∧
    (∃ e, NetConf.parse (some ⟨"1.0.0", "n", "vlan", "", 100, none, none⟩)
      = .error e) ∧
    NetConf.parse (some ⟨"1.0.0", "n", "vlan", "eth0", 100, none, none⟩)
      = .ok ⟨"1.0.0", "n", "vlan", "eth0", 100, none, none⟩ ∧
    (cmd_add ⟨true, .ok true, true, false, true, true, true, true, true, true,
        true, true, true, true, true, true⟩
      (some ⟨"1.0.0", "n", "vlan", "eth0", 5000, none, none⟩)
      ⟨"c", "ns", "eth1", [], "/opt"⟩ ⟨["eth0"]⟩).trace = [] := by
  refine ⟨?_, ?_, ?_, ?_, ?_⟩
  · exact (netconf_parse_validation ⟨"1.0.0", "n", "vlan", "eth0", 5000, none, none⟩
      ⟨true, .ok true, true, false, true, true, true, true, true, true, true,
        true, true, true, true, true⟩
      ⟨"c", "ns", "eth1", [], "/opt"⟩ ⟨["eth0"]⟩ none).1 (by decide)
  · exact (netconf_parse_validation ⟨"1.0.0", "n", "vlan", "eth0", 0, none, none⟩
      ⟨true, .ok true, true, false, true, true, true, true, true, true, true,
        true, true, true, true, true⟩
      ⟨"c", "ns", "eth1", [], "/opt"⟩ ⟨["eth0"]⟩ none).1 (by decide)
  · exact (netconf_parse_validation ⟨"1.0.0", "n", "vlan", "", 100, none, none⟩
      ⟨true, .ok true, true, false, true, true, true, true, true, true, true,
        true, true, true, true, true⟩
      ⟨"c", "ns", "eth1", [], "/opt"⟩ ⟨["eth0"]⟩ none).2.1 rfl
  · exact (netconf_parse_validation ⟨"1.0.0", "n", "vlan", "eth0", 100, none, none⟩
      ⟨true, .ok true, true, false, true, true, true, true, true, true, true,
        true, true, true, true, true⟩
      ⟨"c", "ns", "eth1", [], "/opt"⟩ ⟨["eth0"]⟩ none).2.2.1 (by decide) (by decide)
      (by decide)
  · exact ((netconf_parse_validation ⟨"1.0.0", "n", "vlan", "eth0", 100, none, none⟩
      ⟨true, .ok true, true, false, true, true, true, true, true, true, true,
        true, true, true, true, true⟩
      ⟨"c", "ns", "eth1", [], "/opt"⟩ ⟨["eth0"]⟩
      (some ⟨"1.0.0", "n", "vlan", "eth0", 5000, none, none⟩)).2.2.2
      ⟨"Invalid VLAN ID (must be between 1 and 4094)", rfl⟩).1

/-- C9: del_network is idempotent and total in its error handling: it returns
Ok for EVERY environment (absent namespace, failed in-namespace delete, failed
restore, failed deregistration are all swallowed), so in particular a second
DEL against an already-removed namespace (namespace open fails) also
succeeds. -/
theorem del_network_idempotent (env : DelEnv) (conf : NetConf)
    (args : CmdArgs) :
    (del_network env conf args).ret = .ok () ∧
    (del_network { env with netnsOpenOk := false } conf args).ret = .ok () :=
  ⟨rfl, rfl⟩

/-- Helper: the in-namespace closure never issues a link deletion. -/
theorem finalizeInNs_no_delete (env : AddEnv) (conf : NetConf)
    (ifname nm : String) (res : CniResult) :
    ∀ c ∈ (finalizeInNs env conf ifname nm res).cmds, c.isLinkDelete = false := by
  unfold finalizeInNs
  rcases conf.ipam with _ | ipam <;>
    by_cases h1 : nm ≠ ifname ∧ env.renameOk = false <;>
    by_cases h2 : env.upInNsOk = false <;>
    by_cases h3 : nm ≠ ifname <;>
    by_cases h4 : env.addrOk = false <;>
    simp_all [Cmd.isLinkDelete]

/-- Helper: the in-namespace stage never issues a link deletion. -/
theorem nsStage_no_delete (env : AddEnv) (conf : NetConf) (args : CmdArgs)
    (s2 : OsState) (nm : String) (tr : List Cmd) (warns : List String)
    (htr : ∀ c ∈ tr, c.isLinkDelete = false) :
    ∀ c ∈ (nsStage env conf args s2 nm tr warns).trace, c.isLinkDelete = false := by
  have hfin := finalizeInNs_no_delete env conf args.ifname nm
    ((CniResult.new conf.cni_version).add_interface
      ⟨args.ifname, none, some args.netns⟩)
  unfold nsStage
  by_cases h1 : env.netnsOpenOk = false <;>
    by_cases h2 : env.curOpenOk = false <;>
    by_cases h3 : env.setNsOk = false <;>
    by_cases h4 : env.restoreOk = false <;>
    rcases hr : (finalizeInNs env conf args.ifname nm
      ((CniResult.new conf.cni_version).add_interface
        ⟨args.ifname, none, some args.netns⟩)).ret with e | r <;>
    simp_all [List.mem_append] <;>
    intro c hc <;>
    rcases hc with hc | hc <;>
    first
      | exact htr c hc
      | exact hfin c hc

/-- Helper: the host-side provisioning stage never issues a link deletion. -/
theorem provision_no_delete (env : AddEnv) (conf : NetConf) (args : CmdArgs)
    (s : OsState) (warns0 : List String) :
    ∀ c ∈ (provision env conf args s warns0).trace, c.isLinkDelete = false := by
  unfold provision
  by_cases h1 : env.masterExists = false <;>
    by_cases h2 : createAccepted (ipLinkAdd env.createFails
      (vlanName conf.master conf.vlan) s).1 = false <;>
    by_cases h3 : env.upOk = false <;>
    by_cases h4 : env.moveOk = false <;>
    rcases hm : conf.mtu with _ | m <;>
    simp_all [Cmd.isLinkDelete, List.mem_append] <;>
    (apply nsStage_no_delete
     intro c hc
     cases c <;> simp_all [Cmd.isLinkDelete])

/-- Helper: add_network never issues a link deletion in any run: there is no
cleanup path. -/
theorem add_network_no_delete (env : AddEnv) (conf : NetConf) (args : CmdArgs)
    (s : OsState) :
    ∀ c ∈ (add_network env conf args s).trace, c.isLinkDelete = false := by
  unfold add_network
  by_cases h : accessDenied (check_vlan_access env.aranyaInitOk env.accessCheck) <;>
    simp_all [provision_no_delete]
  exact provision_no_delete env conf args s _

/-- C2 counterexample: with access allowed, master present, link creation
succeeding and the subsequent link-up failing, add_network surfaces the error
WITHOUT any cleanup: no deletion command is issued and the newly created link
eth0.100 is left in the host namespace. This falsifies the claim that a fatal
error after link creation triggers best-effort cleanup so that no orphaned
link is left. -/
theorem add_network_no_cleanup_counterexample :
    (add_network
      ⟨true, .ok true, true, false, false, true, true, true, true, true, true,
        true, true, true, true, true⟩
      ⟨"1.0.0", "testnet", "vlan", "eth0", 100, none, none⟩
      ⟨"ctr1", "cnitest", "eth1", [], "/opt/cni/bin"⟩ ⟨["eth0"]⟩).ret
      = .error "Failed to set VLAN interface up" ∧
    "eth0.100" ∈ (add_network
      ⟨true, .ok true, true, false, false, true, true, true, true, true, true,
        true, true, true, true, true⟩
      ⟨"1.0.0", "testnet", "vlan", "eth0", 100, none, none⟩
      ⟨"ctr1", "cnitest", "eth1", [], "/opt/cni/bin"⟩ ⟨["eth0"]⟩).state.hostLinks ∧
    ∀ c ∈ (add_network
      ⟨true, .ok true, true, false, false, true, true, true, true, true, true,
        true, true, true, true, true⟩
      ⟨"1.0.0", "testnet", "vlan", "eth0", 100, none, none⟩
      ⟨"ctr1", "cnitest", "eth1", [], "/opt/cni/bin"⟩ ⟨["eth0"]⟩).trace,
      c.isLinkDelete = false := by
  refine ⟨rfl, by decide, by decide⟩

/-- C2 (amended): when a fatal error occurs after the VLAN link has been
created (here: the link-up failure), add_network surfaces the error without
attempting any cleanup — no deletion command is ever issued in any run of
add_network — and the partially created link remains in the host
namespace. -/
theorem add_network_error_after_create_no_cleanup (env : AddEnv)
    (conf : NetConf) (args : CmdArgs) (s : OsState)
    (hnd : accessDenied (check_vlan_access env.aranyaInitOk env.accessCheck) = false)
    (hmaster : env.masterExists = true)
    (hcf : env.createFails = false)
    (hnew : vlanName conf.master conf.vlan ∉ s.hostLinks)
    (hup : env.upOk = false) :
    (∃ e, (add_network env conf args s).ret = .error e) ∧
    vlanName conf.master conf.vlan ∈ (add_network env conf args s).state.hostLinks ∧
    ∀ c ∈ (add_network env conf args s).trace, c.isLinkDelete = false := by
  have hcont : s.hostLinks.contains (vlanName conf.master conf.vlan) = false := by
    simpa using hnew
  refine ⟨?_, ?_, add_network_no_delete env conf args s⟩ <;>
    unfold add_network provision ipLinkAdd <;>
    simp [hnd, hmaster, hcf, hup, hnew, hcont, createAccepted, containsFileExists]

/-- Witness for C2's amended theorem at the counterexample's concrete
input. -/
theorem add_network_error_after_create_no_cleanup_witness :
    (∃ e, (add_network
      ⟨true, .ok true, true, false, false, true, true, true, true, true, true,
        true, true, true, true, true⟩
      ⟨"1.0.0", "testnet", "vlan", "eth0", 100, none, none⟩
      ⟨"ctr1", "cnitest", "eth1", [], "/opt/cni/bin"⟩ ⟨["eth0"]⟩).ret = .error e) ∧
    vlanName "eth0" 100 ∈ (add_network
      ⟨true, .ok true, true, false, false, true, true, true, true, true, true,
        true, true, true, true, true⟩
      ⟨"1.0.0", "testnet", "vlan", "eth0", 100, none, none⟩
      ⟨"ctr1", "cnitest", "eth1", [], "/opt/cni/bin"⟩ ⟨["eth0"]⟩).state.hostLinks ∧
    ∀ c ∈ (add_network
      ⟨true, .ok true, true, false, false, true, true, true, true, true, true,
        true, true, true, true, true⟩
      ⟨"1.0.0", "testnet", "vlan", "eth0", 100, none, none⟩
      ⟨"ctr1", "cnitest", "eth1", [], "/opt/cni/bin"⟩ ⟨["eth0"]⟩).trace,
      c.isLinkDelete = false :=
  add_network_error_after_create_no_cleanup
    ⟨true, .ok true, true, false, false, true, true, true, true, true, true,
      true, true, true, true, true⟩
    ⟨"1.0.0", "testnet", "vlan", "eth0", 100, none, none⟩
    ⟨"ctr1", "cnitest", "eth1", [], "/opt/cni/bin"⟩ ⟨["eth0"]⟩
    rfl rfl rfl (by decide) rfl

/-- C5: when the access check returns Ok(false), add_network aborts with an
error before any network operation: the command trace is empty (no
master-interface lookup, no link creation, no migration) and the host
namespace is unchanged, so no link is left behind. -/
theorem add_network_denied_no_mutation (env : AddEnv) (conf : NetConf)
    (args : CmdArgs) (s : OsState)
    (hinit : env.aranyaInitOk = true) (hdeny : env.accessCheck = .ok false) :
    (∃ e, (add_network env conf args s).ret = .error e) ∧
    (add_network env conf args s).trace = [] ∧
    (add_network env conf args s).state = s := by
  unfold add_network
  simp [check_vlan_access, accessDenied, hinit, hdeny]

/-- Witness for C5 at a concrete denied invocation. -/
theorem add_network_denied_no_mutation_witness :
    (∃ e, (add_network
      ⟨true, .ok false, true, false, true, true, true, true, true, true, true,
        true, true, true, true, true⟩
      ⟨"1.0.0", "testnet", "vlan", "eth0", 100, none, none⟩
      ⟨"ctr1", "cnitest", "eth1", [], "/opt/cni/bin"⟩ ⟨["eth0"]⟩).ret = .error e) ∧
    (add_network
      ⟨true, .ok false, true, false, true, true, true, true, true, true, true,
        true, true, true, true, true⟩
      ⟨"1.0.0", "testnet", "vlan", "eth0", 100, none, none⟩
      ⟨"ctr1", "cnitest", "eth1", [], "/opt/cni/bin"⟩ ⟨["eth0"]⟩).trace = [] ∧
    (add_network
      ⟨true, .ok false, true, false, true, true, true, true, true, true, true,
        true, true, true, true, true⟩
      ⟨"1.0.0", "testnet", "vlan", "eth0", 100, none, none⟩
      ⟨"ctr1", "cnitest", "eth1", [], "/opt/cni/bin"⟩ ⟨["eth0"]⟩).state = ⟨["eth0"]⟩ :=
  add_network_denied_no_mutation
    ⟨true, .ok false, true, false, true, true, true, true, true, true, true,
      true, true, true, true, true⟩
    ⟨"1.0.0", "testnet", "vlan", "eth0", 100, none, none⟩
    ⟨"ctr1", "cnitest", "eth1", [], "/opt/cni/bin"⟩ ⟨["eth0"]⟩ rfl rfl

/-- C6: the access-control gate fails open. When the Aranya client is not
initialized, check_vlan_access returns Ok(true); and when the access check
itself returns an error, add_network behaves exactly as if the check had
returned Ok(true) (the error is ignored and the ADD proceeds to create and
migrate the link). -/
theorem access_check_fail_open (b : Except String Bool) (e : String)
    (env : AddEnv) (conf : NetConf) (args : CmdArgs) (s : OsState) :
    check_vlan_access false b = .ok true ∧
    add_network { env with accessCheck := .error e } conf args s =
      add_network { env with accessCheck := .ok true } conf args s := by
  refine ⟨rfl, ?_⟩
  unfold add_network
  cases h : env.aranyaInitOk <;>
    simp [check_vlan_access, accessDenied, h, provision, nsStage, finalizeInNs]

/-- Helper: a creation attempt with no injected OS failure is always accepted
by the add_network check, whether the link is new or already exists. -/
theorem ipLinkAdd_ok_accepted (nm : String) (s : OsState) :
    createAccepted (ipLinkAdd false nm s).1 = true := by
  unfold ipLinkAdd
  by_cases hc : nm ∈ s.hostLinks
  · simp [hc, createAccepted]
    decide
  · simp [hc, createAccepted]

/-- C7: the sub-interface name is deterministically master.vlan; creating the
link when absent succeeds; a second creation reports failure with a
"File exists" stderr, which the acceptance check treats as success, the link
set is unchanged and contains exactly one copy of the name; and a full
add_network run against a state where the link already exists (even with the
create syscall set to fail) still returns Ok — provisioning continues. -/
theorem link_creation_idempotent (master : String) (vlan : Nat) (c2 : Bool)
    (s : OsState) (h : vlanName master vlan ∉ s.hostLinks) :
    vlanName master vlan = master ++ "." ++ toString vlan ∧
    createAccepted (ipLinkAdd false (vlanName master vlan) s).1 = true ∧
    (ipLinkAdd c2 (vlanName master vlan)
      (ipLinkAdd false (vlanName master vlan) s).2).1.success = false ∧
    createAccepted (ipLinkAdd c2 (vlanName master vlan)
      (ipLinkAdd false (vlanName master vlan) s).2).1 = true ∧
    ((ipLinkAdd c2 (vlanName master vlan)
      (ipLinkAdd false (vlanName master vlan) s).2).2).hostLinks.count
        (vlanName master vlan) = 1 ∧
    (∀ (cv nme pt : String) (mtu : Option Nat) (ipam : Option IPAMConfig)
      (args : CmdArgs),
      ∃ r, (add_network
        ⟨true, .ok true, true, true, true, true, true, true, true, true, true,
          true, true, true, true, true⟩
        ⟨cv, nme, pt, master, vlan, mtu, ipam⟩ args
        (ipLinkAdd false (vlanName master vlan) s).2).ret = .ok r) := by
  have h1 : ipLinkAdd false (vlanName master vlan) s =
      (⟨true, ""⟩, ⟨vlanName master vlan :: s.hostLinks⟩) := by
    simp [ipLinkAdd, h]
  have h2 : ∀ cf : Bool, ipLinkAdd cf (vlanName master vlan)
      ⟨vlanName master vlan :: s.hostLinks⟩ =
      (⟨false, "RTNETLINK answers: File exists"⟩,
        ⟨vlanName master vlan :: s.hostLinks⟩) := by
    intro cf
    simp [ipLinkAdd]
  have hfe : containsFileExists "RTNETLINK answers: File exists" = true := by
    decide
  refine ⟨rfl, ?_, ?_, ?_, ?_, ?_⟩
  · rw [h1]
    rfl
  · rw [h1, h2]
  · rw [h1, h2]
    show createAccepted ⟨false, "RTNETLINK answers: File exists"⟩ = true
    simp [createAccepted, hfe]
  · rw [h1, h2]
    simp [List.count_cons_self, List.count_eq_zero.mpr h]
  · intro cv nme pt mtu ipam args
    rw [h1]
    unfold add_network provision nsStage finalizeInNs
    rcases ipam with _ | ip
    · rcases mtu with _ | m <;>
        simp [check_vlan_access, accessDenied, h2, createAccepted, hfe]
    · rcases hr : ip.routes with _ | rs <;> rcases mtu with _ | m <;>
        simp [check_vlan_access, accessDenied, h2, createAccepted, hfe, hr]

/-- Witness for C7 at a concrete input: master eth0, vlan 100, starting from
a host namespace holding only eth0. -/
theorem link_creation_idempotent_witness :
    vlanName "eth0" 100 = "eth0" ++ "." ++ toString 100 ∧
    createAccepted (ipLinkAdd false (vlanName "eth0" 100) ⟨["eth0"]⟩).1 = true ∧
    (ipLinkAdd true (vlanName "eth0" 100)
      (ipLinkAdd false (vlanName "eth0" 100) ⟨["eth0"]⟩).2).1.success = false ∧
    createAccepted (ipLinkAdd true (vlanName "eth0" 100)
      (ipLinkAdd false (vlanName "eth0" 100) ⟨["eth0"]⟩).2).1 = true ∧
    ((ipLinkAdd true (vlanName "eth0" 100)
      (ipLinkAdd false (vlanName "eth0" 100) ⟨["eth0"]⟩).2).2).hostLinks.count
        (vlanName "eth0" 100) = 1 ∧
    (∀ (cv nme pt : String) (mtu : Option Nat) (ipam : Option IPAMConfig)
      (args : CmdArgs),
      ∃ r, (add_network
        ⟨true, .ok true, true, true, true, true, true, true, true, true, true,
          true, true, true, true, true⟩
        ⟨cv, nme, pt, "eth0", 100, mtu, ipam⟩ args
        (ipLinkAdd false (vlanName "eth0" 100) ⟨["eth0"]⟩).2).ret = .ok r) :=
  link_creation_idempotent "eth0" 100 true ⟨["eth0"]⟩ (by decide)

/-- Helper: add_route does not touch the ips accumulator. -/
theorem add_route_ips (r : CniResult) (rt : CniRoute) :
    (r.add_route rt).ips = r.ips := rfl

/-- Helper: add_ip appends exactly one entry to the ips accumulator. -/
theorem add_ip_ips (r : CniResult) (ip : IPConfig) :
    (r.add_ip ip).ips = some (r.ips.getD [] ++ [ip]) := rfl

/-- C8: during in-namespace finalization of ADD with an address plan present,
a failure to apply the allocated address is fatal (add_network returns an
error), while a failure to install the default route is non-fatal: the run
still returns a result and the failure is only logged as a warning. -/
theorem addr_fatal_route_nonfatal (env : AddEnv) (conf : NetConf)
    (args : CmdArgs) (s : OsState) (ipam : IPAMConfig)
    (hnd : accessDenied (check_vlan_access env.aranyaInitOk env.accessCheck) = false)
    (hmaster : env.masterExists = true) (hcf : env.createFails = false)
    (hup : env.upOk = true) (hmove : env.moveOk = true)
    (hopen : env.netnsOpenOk = true) (hcur : env.curOpenOk = true)
    (hset : env.setNsOk = true) (hrestore : env.restoreOk = true)
    (hren : env.renameOk = true) (hupns : env.upInNsOk = true)
    (hipam : conf.ipam = some ipam) :
    (env.addrOk = false → ∃ e, (add_network env conf args s).ret = .error e) ∧
    (env.addrOk = true → ∃ r, (add_network env conf args s).ret = .ok r) ∧
    (env.addrOk = true → env.routeOk = false →
      "Failed to add default route" ∈ (add_network env conf args s).warnings) := by
  have hacc := ipLinkAdd_ok_accepted (vlanName conf.master conf.vlan) s
  unfold add_network provision nsStage finalizeInNs
  rcases hm : conf.mtu with _ | m <;>
    rcases hr : ipam.routes with _ | rs <;>
    by_cases ha : env.addrOk = false <;>
    simp_all [hnd, hmaster, hup, hmove, hopen, hcur, hset, hrestore, hren,
      hupns, hipam, hm, hr]

/-- Witness for C8 at concrete inputs: one run with the address application
failing (fatal), one run with the address applied and the route installation
failing (non-fatal, warned). -/
theorem addr_fatal_route_nonfatal_witness :
    (∃ e, (add_network
      ⟨true, .ok true, true, false, true, true, true, true, true, true, true,
        true, false, true, true, true⟩
      ⟨"1.0.0", "n", "vlan", "eth0", 100, none,
        some ⟨"host-local", none, none, none, none⟩⟩
      ⟨"c", "ns", "eth1", [], "/opt"⟩ ⟨["eth0"]⟩).ret = .error e) ∧
    (∃ r, (add_network
      ⟨true, .ok true, true, false, true, true, true, true, true, true, true,
        true, true, false, true, true⟩
      ⟨"1.0.0", "n", "vlan", "eth0", 100, none,
        some ⟨"host-local", none, none, none, none⟩⟩
      ⟨"c", "ns", "eth1", [], "/opt"⟩ ⟨["eth0"]⟩).ret = .ok r) ∧
    "Failed to add default route" ∈ (add_network
      ⟨true, .ok true, true, false, true, true, true, true, true, true, true,
        true, true, false, true, true⟩
      ⟨"1.0.0", "n", "vlan", "eth0", 100, none,
        some ⟨"host-local", none, none, none, none⟩⟩
      ⟨"c", "ns", "eth1", [], "/opt"⟩ ⟨["eth0"]⟩).warnings :=
  ⟨(addr_fatal_route_nonfatal
      ⟨true, .ok true, true, false, true, true, true, true, true, true, true,
        true, false, true, true, true⟩
      ⟨"1.0.0", "n", "vlan", "eth0", 100, none,
        some ⟨"host-local", none, none, none, none⟩⟩
      ⟨"c", "ns", "eth1", [], "/opt"⟩ ⟨["eth0"]⟩
      ⟨"host-local", none, none, none, none⟩
      rfl rfl rfl rfl rfl rfl rfl rfl rfl rfl rfl rfl).1 rfl,
   (addr_fatal_route_nonfatal
      ⟨true, .ok true, true, false, true, true, true, true, true, true, true,
        true, true, false, true, true⟩
      ⟨"1.0.0", "n", "vlan", "eth0", 100, none,
        some ⟨"host-local", none, none, none, none⟩⟩
      ⟨"c", "ns", "eth1", [], "/opt"⟩ ⟨["eth0"]⟩
      ⟨"host-local", none, none, none, none⟩
      rfl rfl rfl rfl rfl rfl rfl rfl rfl rfl rfl rfl).2.1 rfl,
   (addr_fatal_route_nonfatal
      ⟨true, .ok true, true, false, true, true, true, true, true, true, true,
        true, true, false, true, true⟩
      ⟨"1.0.0", "n", "vlan", "eth0", 100, none,
        some ⟨"host-local", none, none, none, none⟩⟩
      ⟨"c", "ns", "eth1", [], "/opt"⟩ ⟨["eth0"]⟩
      ⟨"host-local", none, none, none, none⟩
      rfl rfl rfl rfl rfl rfl rfl rfl rfl rfl rfl rfl).2.2 rfl rfl⟩

/-- C10: with an IPAM section present, the address and gateway applied during
in-namespace finalization are a pure function of the VLAN id — replacing the
IPAM section by any other with the same routes list (different type, subnet,
range, gateway) leaves the outcome unchanged — the applied values are
192.168.(vlan mod 256).2/24 and 192.168.(vlan mod 256).1, and the IPConfig
record appended to the result carries exactly these values with no
owning-interface index. -/
theorem ipam_address_pure_function_of_vlan (env : AddEnv) (conf : NetConf)
    (ifname nm : String) (res : CniResult) (ipam ipam2 : IPAMConfig)
    (hipam : conf.ipam = some ipam) (hroutes : ipam.routes = ipam2.routes)
    (hren : env.renameOk = true) (hup : env.upInNsOk = true)
    (haddr : env.addrOk = true) (hres : res.ips = none) :
    finalizeInNs env { conf with ipam := some ipam2 } ifname nm res =
      finalizeInNs env conf ifname nm res ∧
    ipAddrFor conf.vlan = "192.168." ++ toString (conf.vlan % 256) ++ ".2/24" ∧
    gatewayFor conf.vlan = "192.168." ++ toString (conf.vlan % 256) ++ ".1" ∧
    ∃ r, (finalizeInNs env conf ifname nm res).ret = .ok r ∧
      r.ips = some [⟨none, ipAddrFor conf.vlan, some (gatewayFor conf.vlan)⟩] := by
  refine ⟨?_, rfl, rfl, ?_⟩
  · unfold finalizeInNs
    simp [hipam, hroutes, hren, hup, haddr]
  · unfold finalizeInNs
    rcases hr : ipam.routes with _ | rs <;>
      by_cases hrn : nm ≠ ifname <;>
      simp [hipam, hren, hup, haddr, hr, hrn, foldl_add_route_ips,
        add_route_ips, add_ip_ips, hres]

/-- Witness for C10 at a concrete input: two IPAM sections differing in type,
subnet, range and gateway produce identical outcomes, and the applied address
records are the VLAN-derived ones. -/
theorem ipam_address_pure_function_of_vlan_witness :
    finalizeInNs
      ⟨true, .ok true, true, false, true, true, true, true, true, true, true,
        true, true, true, true, true⟩
      { (⟨"1.0.0", "n", "vlan", "eth0", 300, none,
          some ⟨"host-local", some "10.1.0.0/16", none, none, none⟩⟩ : NetConf)
        with ipam := some ⟨"static", some "172.16.0.0/12", some "r", some "g", none⟩ }
      "eth1" "eth0.300" (CniResult.new "1.0.0") =
      finalizeInNs
        ⟨true, .ok true, true, false, true, true, true, true, true, true, true,
          true, true, true, true, true⟩
        ⟨"1.0.0", "n", "vlan", "eth0", 300, none,
          some ⟨"host-local", some "10.1.0.0/16", none, none, none⟩⟩
        "eth1" "eth0.300" (CniResult.new "1.0.0") ∧
    ipAddrFor 300 = "192.168." ++ toString (300 % 256) ++ ".2/24" ∧
    gatewayFor 300 = "192.168." ++ toString (300 % 256) ++ ".1" ∧
    ∃ r, (finalizeInNs
      ⟨true, .ok true, true, false, true, true, true, true, true, true, true,
        true, true, true, true, true⟩
      ⟨"1.0.0", "n", "vlan", "eth0", 300, none,
        some ⟨"host-local", some "10.1.0.0/16", none, none, none⟩⟩
      "eth1" "eth0.300" (CniResult.new "1.0.0")).ret = .ok r ∧
      r.ips = some [⟨none, ipAddrFor 300, some (gatewayFor 300)⟩] :=
  ipam_address_pure_function_of_vlan
    ⟨true, .ok true, true, false, true, true, true, true, true, true, true,
      true, true, true, true, true⟩
    ⟨"1.0.0", "n", "vlan", "eth0", 300, none,
      some ⟨"host-local", some "10.1.0.0/16", none, none, none⟩⟩
    "eth1" "eth0.300" (CniResult.new "1.0.0")
    ⟨"host-local", some "10.1.0.0/16", none, none, none⟩
    ⟨"static", some "172.16.0.0/12", some "r", some "g", none⟩
    rfl rfl rfl rfl rfl rfl
